import Mathlib

/-!
Shallow embedding of the cache/state/enrichment core of the travel-agency
chatbot backend (app/core: cache_manager.py, gallery_manager.py,
weight_system.py, response_enricher.py, chatbot.py), with theorems about
the behaviour of the embedded operations.

Machine conventions shared by all definitions:
* Python strings are `String`; a field Python reads with `.get(key, '')`
  (or whose falsy values `None` and `''` are treated alike by the code)
  is a `String` where `""` stands for "missing or empty".
* Python `float` scores/weights are `ℚ` (the scores are small exact
  fractions, so rational arithmetic matches the source's float results).
* Wall-clock instants are `Nat` seconds; `datetime.now()` becomes an
  explicit `now` argument.
* Calls into the remote Gateway are passed in as functions returning
  `Option` (`none` = the call raised); a `try/except` block becomes a
  `match` on those results.
-/

namespace AgencyServer

/-- Python's `needle in hay` substring containment on strings. -/
def isSubstr (needle hay : String) : Bool :=
  hay.toList.tails.any (fun t => needle.toList.isPrefixOf t)

/-- The ASCII whitespace Python's `str.split()` / `str.strip()` and
`re` class `\s` recognise: space, tab, newline, carriage return,
vertical tab, form feed. -/
def isPySpace (c : Char) : Bool :=
  c == ' ' || c == '\t' || c == '\n' || c == '\r' || c == '\x0b' || c == '\x0c'

/-- Python `s.lower()` (on the ASCII range, which is all the fixed
tables use). -/
def pyToLower (s : String) : String :=
  String.mk (s.toList.map Char.toLower)

/-- Split a character list at every separator character (keeping empty
pieces, like `str.split(sep)`). -/
def splitRuns (p : Char → Bool) : List Char → List Char → List (List Char)
  | acc, [] => [acc.reverse]
  | acc, c :: rest =>
    if p c then acc.reverse :: splitRuns p [] rest else splitRuns p (c :: acc) rest

/-- Python `s.split()` with no argument: split on whitespace runs,
producing no empty tokens. -/
def pySplit (s : String) : List String :=
  ((splitRuns isPySpace [] s.toList).map String.mk).filter (fun w => w != "")

/-- Python `s.strip()`: drop leading and trailing whitespace. -/
def pyStrip (s : String) : String :=
  String.mk (((s.toList.dropWhile isPySpace).reverse.dropWhile isPySpace).reverse)

/-! ## Gallery manager (`gallery_manager.py`) -/

/-- One row of `gallery_images` as the matcher reads it (`keywords`,
`name`, `description`, `url`; `""` models a missing/falsy field). -/
structure GalleryImage where
  keywords : List String
  name : String
  description : String
  url : String
  deriving DecidableEq, Repr

/-- One gallery with its nested `gallery_images`, as held in
`GalleryManager._galleries`. -/
structure Gallery where
  id : String
  name : String
  description : String
  keywords : List String
  gallery_images : List GalleryImage
  deriving DecidableEq, Repr

/-- `GalleryManager._calculate_keyword_match_score`: the four checks
(gallery keywords, name, description, images), each guarded by presence
of the data, accumulating `matches` and `total_checks`; the keyword
check adds one match per search term that hits some keyword, the name
check adds two matches and two checks, and the final score is
`matches / total_checks` (0 when there is nothing to check or no
search terms). -/
def calculate_keyword_match_score (search_terms : List String) (gallery : Gallery) : ℚ :=
  if search_terms = [] then 0
  else
    let search_terms := search_terms.map pyToLower
    let kwPair : Nat × Nat :=
      if gallery.keywords ≠ [] then
        (search_terms.countP
          (fun term => gallery.keywords.any (fun keyword => isSubstr term (pyToLower keyword))), 1)
      else (0, 0)
    let namePair : Nat × Nat :=
      if pyToLower gallery.name ≠ "" then
        ((if search_terms.any (fun term => isSubstr term (pyToLower gallery.name)) then 2 else 0), 2)
      else (0, 0)
    let descPair : Nat × Nat :=
      if pyToLower gallery.description ≠ "" then
        ((if search_terms.any (fun term => isSubstr term (pyToLower gallery.description))
           then 1 else 0), 1)
      else (0, 0)
    let imgPair : Nat × Nat :=
      if gallery.gallery_images ≠ [] then
        (let image_matches : Nat := (gallery.gallery_images.map (fun image =>
            (if image.keywords.any
                (fun keyword => search_terms.any (fun term => isSubstr term (pyToLower keyword)))
              then 1 else 0)
            + (if search_terms.any (fun term => isSubstr term (pyToLower image.name))
              then 1 else 0)
            + (if search_terms.any (fun term => isSubstr term (pyToLower image.description))
              then 1 else 0))).sum
         ((if 0 < image_matches then 1 else 0), 1))
      else (0, 0)
    let match_count : Nat := kwPair.1 + namePair.1 + descPair.1 + imgPair.1
    let total_checks : Nat := kwPair.2 + namePair.2 + descPair.2 + imgPair.2
    if total_checks = 0 then 0 else (match_count : ℚ) / (total_checks : ℚ)

/-- Insert one scored gallery into a list already sorted by descending
score, after every earlier element of greater or equal score. -/
def insertByScoreDesc (x : Gallery × ℚ) : List (Gallery × ℚ) → List (Gallery × ℚ)
  | [] => [x]
  | y :: ys => if y.2 ≤ x.2 then x :: y :: ys else y :: insertByScoreDesc x ys

/-- Stable sort by descending score: the unique stable result, so it is
extensionally Python's `list.sort(key=lambda x: x['score'], reverse=True)`. -/
def sortByScoreDesc : List (Gallery × ℚ) → List (Gallery × ℚ)
  | [] => []
  | x :: xs => insertByScoreDesc x (sortByScoreDesc xs)

/-- `GalleryManager.find_relevant_galleries` (`min_score` defaults to
`0.1` at the Python call sites): filter null/empty terms and lowercase
the rest; with no terms left return every indexed gallery, otherwise
keep the galleries scoring at least `min_score` and sort them by
descending score. `galleries` is `self._galleries.values()` in
insertion order. -/
def find_relevant_galleries (galleries : List Gallery) (search_terms : List String)
    (min_score : ℚ) : List Gallery :=
  let filtered_terms := (search_terms.filter (fun term => term != "")).map pyToLower
  if filtered_terms = [] then galleries
  else
    let relevant_galleries := galleries.filterMap (fun gallery =>
      let score := calculate_keyword_match_score filtered_terms gallery
      if min_score ≤ score then some (gallery, score) else none)
    (sortByScoreDesc relevant_galleries).map Prod.fst

/-- The fixed trigger words signalling the user wants images
(`image_indicators` in `extract_search_terms`). -/
def image_indicators : List String :=
  ["foto", "fotos", "imagen", "imágenes", "imagenes",
   "muestra", "mostrar", "ver", "enseña", "enseñar"]

/-- The fixed stop-word set (`ignore_words` in `extract_search_terms`). -/
def ignore_words : List String :=
  ["el", "la", "los", "las", "un", "una", "unos", "unas",
   "de", "del", "en", "por", "para", "con", "sin",
   "y", "o", "pero", "mas", "más",
   "que", "quien", "quién", "cual", "cuál",
   "este", "esta", "estos", "estas",
   "ese", "esa", "esos", "esas",
   "aquel", "aquella", "aquellos", "aquellas"]

/-- `GalleryManager.extract_search_terms`: empty for a falsy message;
tokenise the lowercased message; return `[]` unless some trigger word is
a token; otherwise keep the tokens that are not trigger words, not stop
words and longer than 2 characters. -/
def extract_search_terms (message : String) : List String :=
  if message = "" then []
  else
    let words := pySplit (pyToLower message)
    if !(image_indicators.any (fun indicator => words.contains indicator)) then []
    else
      words.filter (fun word =>
        !(image_indicators.contains word) && !(ignore_words.contains word)
          && decide (2 < word.length))

/-! ## Weight system (`weight_system.py`) -/

/-- A chatbot's `personality` sub-dict as the core reads it. `none` on
the config models a missing or empty (falsy) personality dict, in which
case `get('use_emojis', True)` yields `True`. -/
structure Personality where
  use_emojis : Bool
  deriving DecidableEq, Repr

/-- The chatbot configuration facets the cache/enrichment core reads,
with Python truthiness made explicit: a list/string field is falsy when
empty, `personality` is falsy when `none`. -/
structure ChatbotConfig where
  quick_questions : List String
  personality : Option Personality
  context : String
  configuration : List (String × String)
  voice_enabled : Bool
  use_emojis : Bool
  deriving DecidableEq, Repr

/-- `WeightSystem.chatbot_weights`: the fixed base-importance table
(`welcome_message` is present in the table but never consulted by
`calculate_response_weights`). -/
def chatbot_weights : List (String × ℚ) :=
  [("quick_questions", 35/100), ("personality", 15/100), ("context", 20/100),
   ("configuration", 15/100), ("voice_enabled", 5/100), ("use_emojis", 5/100),
   ("welcome_message", 5/100)]

/-- Lookup in the base-weight table (`self.chatbot_weights[key]`). -/
def wval (key : String) : ℚ := (chatbot_weights.lookup key).getD 0

/-- The sum of a weight map's values (`sum(weights.values())`). -/
def sumVals (l : List (String × ℚ)) : ℚ := (l.map Prod.snd).sum

/-- `WeightSystem.calculate_response_weights`: entries for truthy
facets (plus always-present `voice_enabled` / `use_emojis` entries that
are zero when falsy), then divide everything by the total when it is
positive. The insertion order of the Python dict is kept. -/
def calculate_response_weights (cfg : ChatbotConfig) : List (String × ℚ) :=
  let weights : List (String × ℚ) :=
    (if cfg.quick_questions ≠ [] then [("quick_questions", wval "quick_questions")] else [])
    ++ (if cfg.personality.isSome then [("personality", wval "personality")] else [])
    ++ (if cfg.context ≠ "" then [("context", wval "context")] else [])
    ++ (if cfg.configuration ≠ [] then [("configuration", wval "configuration")] else [])
    ++ [("voice_enabled", if cfg.voice_enabled then wval "voice_enabled" else 0)]
    ++ [("use_emojis", if cfg.use_emojis then wval "use_emojis" else 0)]
  let total_weight := sumVals weights
  if 0 < total_weight then weights.map (fun p => (p.1, p.2 / total_weight)) else weights

/-! ## Memory relevance (`chatbot.py`) -/

/-- The important key words of `ChatbotManager._calculate_relevance`. -/
def key_terms : List String := ["reserva", "destino", "preferencia", "contacto", "fecha"]

/-- `ChatbotManager._calculate_relevance`: base score 1.0, plus a
content score `min(len(value.split()) / 100, 0.5)`, plus 0.1 for each
key term occurring in `(key + value).lower()`, capped at 2.0. -/
def calculate_relevance (key value : String) : ℚ :=
  let base_score : ℚ := 1
  let content_score : ℚ := min (((pySplit value).length : ℚ) / 100) (1/2)
  let term_score : ℚ :=
    ((key_terms.filter (fun term => isSubstr (pyToLower term) (pyToLower (key ++ value)))).length : ℚ)
      * (1/10)
  min (base_score + content_score + term_score) 2

/-- One row of the `chatbot_memories` table as the maintenance pass
reads it. -/
structure Memory where
  id : String
  key : String
  value : String
  relevance_score : ℚ
  deriving DecidableEq, Repr

/-- `ChatbotManager._optimize_memory_relevance` over the rows the query
`relevance_score < 0.3` selects, as a pure pass over the whole table:
a low-relevance row has its score recomputed from key and value and is
deleted when the new score falls below 0.1, updated otherwise; other
rows are untouched. -/
def optimize_memory_relevance (memories : List Memory) : List Memory :=
  memories.filterMap (fun memory =>
    if memory.relevance_score < 3/10 then
      let new_score := calculate_relevance memory.key memory.value
      if new_score < 1/10 then none
      else some { memory with relevance_score := new_score }
    else some memory)

/-! ## Conversation state (`chatbot.py`) -/

/-- One history entry `{'user': ..., 'bot': ..., 'timestamp': ...}`. -/
structure ConversationTurn where
  user : String
  bot : String
  timestamp : Nat
  deriving DecidableEq, Repr

/-- The per-lead conversation state the manager mutates. -/
structure ConversationState where
  history : List ConversationTurn
  last_updated : Nat
  deriving DecidableEq, Repr

/-- `ChatbotManager._update_conversation_and_memory`'s state update:
append the turn, keep only the last 10 entries (`history[-10:]`), and
set `last_updated` to the current time. -/
def update_conversation (state : ConversationState) (user_message bot_response : String)
    (now : Nat) : ConversationState :=
  let history := state.history ++ [⟨user_message, bot_response, now⟩]
  let history := if 10 < history.length then history.drop (history.length - 10) else history
  { history := history, last_updated := now }

/-- Package a `(user, bot, now)` triple as a history entry. -/
def mkTurn (t : String × String × Nat) : ConversationTurn := ⟨t.1, t.2.1, t.2.2⟩

/-- A sequence of conversation updates, one per incoming exchange. -/
def append_turns (state : ConversationState) (turns : List (String × String × Nat)) :
    ConversationState :=
  turns.foldl (fun st t => update_conversation st t.1 t.2.1 t.2.2) state

/-! ## TTL cache (`cache_manager.py`)

`CacheManager.__init__` keys `self.cache`, `self.last_update` and
`self.expiration_times` by the six entity-type strings; here the key is
the inductive `EntityType` and the two dicts are the explicit fields of
`CacheState`. The Gateway (`self.supabase...execute()`) is passed in as
`fetch : EntityType → Option (List Row)` for the table queries and
`fetch_images : String → Option (List Row)` for the per-gallery
`gallery_images` query, `none` modelling a raised exception. -/

/-- The six cached entity types. -/
inductive EntityType
  | image_galleries
  | gallery_images
  | rooms
  | room_types
  | chatbots
  | reservations
  deriving DecidableEq, Repr

/-- One Gateway row: an `id` plus its remaining payload. -/
structure Row where
  id : String
  payload : String
  deriving DecidableEq, Repr

/-- `self.cache` (values) and `self.last_update` (timestamps) of the
cache singleton. `gallery_images` is the dict keyed by gallery id. -/
structure CacheState where
  image_galleries : List Row
  gallery_images : List (String × List Row)
  rooms : List Row
  room_types : List Row
  chatbots : List Row
  reservations : List Row
  lu_image_galleries : Option Nat
  lu_gallery_images : Option Nat
  lu_rooms : Option Nat
  lu_room_types : Option Nat
  lu_chatbots : Option Nat
  lu_reservations : Option Nat
  deriving DecidableEq, Repr

/-- The freshly constructed cache: empty collections, no timestamps. -/
def empty_cache : CacheState :=
  { image_galleries := [], gallery_images := [], rooms := [], room_types := [],
    chatbots := [], reservations := [],
    lu_image_galleries := none, lu_gallery_images := none, lu_rooms := none,
    lu_room_types := none, lu_chatbots := none, lu_reservations := none }

/-- `self.expiration_times`, in seconds. -/
def expiration_times : EntityType → Nat
  | .image_galleries => 3600
  | .gallery_images => 3600
  | .rooms => 300
  | .room_types => 1800
  | .chatbots => 60
  | .reservations => 120

/-- `self.last_update[cache_type]`. -/
def last_update (st : CacheState) : EntityType → Option Nat
  | .image_galleries => st.lu_image_galleries
  | .gallery_images => st.lu_gallery_images
  | .rooms => st.lu_rooms
  | .room_types => st.lu_room_types
  | .chatbots => st.lu_chatbots
  | .reservations => st.lu_reservations

/-- `CacheManager._is_cache_valid`: false when never refreshed, else
`now - last_update < expiration`. -/
def is_cache_valid (st : CacheState) (cache_type : EntityType) (now : Nat) : Bool :=
  match last_update st cache_type with
  | none => false
  | some lu => decide (now - lu < expiration_times cache_type)

/-- Python dict assignment `d[k] = v`: replace in place when the key
exists, append otherwise. -/
def dictInsert (d : List (String × List Row)) (k : String) (v : List Row) :
    List (String × List Row) :=
  if d.any (fun p => p.1 == k) then d.map (fun p => if p.1 == k then (k, v) else p)
  else d ++ [(k, v)]

/-- The per-gallery image loading loop shared by `refresh_cache`'s
`image_galleries` branch and `initialize_cache`: fetch each gallery's
images in turn; a raised fetch (`none`) aborts the loop, keeping the
assignments already made, and reports failure. -/
def load_gallery_images (fetch_images : String → Option (List Row)) :
    CacheState → List Row → CacheState × Bool
  | st, [] => (st, true)
  | st, gallery :: rest =>
    match fetch_images gallery.id with
    | none => (st, false)
    | some imgs =>
      load_gallery_images fetch_images
        { st with gallery_images := dictInsert st.gallery_images gallery.id imgs } rest

/-- One iteration of `refresh_cache`'s loop body: the `elif` branch for
`cache_type`. Returns the mutated state and whether the branch ran to
completion (`false` = a Gateway call raised; the assignments already
made persist, as they do on the Python object). The `gallery_images`
key has no branch of its own in the source, so refreshing it alone is a
no-op. -/
def refresh_one (now : Nat) (fetch : EntityType → Option (List Row))
    (fetch_images : String → Option (List Row)) (st : CacheState) :
    EntityType → CacheState × Bool
  | .chatbots =>
    match fetch .chatbots with
    | none => (st, false)
    | some rows => ({ st with chatbots := rows, lu_chatbots := some now }, true)
  | .image_galleries =>
    match fetch .image_galleries with
    | none => (st, false)
    | some rows =>
      let st := { st with image_galleries := rows, lu_image_galleries := some now }
      match load_gallery_images fetch_images st rows with
      | (st, true) => ({ st with lu_gallery_images := some now }, true)
      | (st, false) => (st, false)
  | .rooms =>
    match fetch .rooms with
    | none => (st, false)
    | some rows => ({ st with rooms := rows, lu_rooms := some now }, true)
  | .room_types =>
    match fetch .room_types with
    | none => (st, false)
    | some rows => ({ st with room_types := rows, lu_room_types := some now }, true)
  | .reservations =>
    match fetch .reservations with
    | none => (st, false)
    | some rows => ({ st with reservations := rows, lu_reservations := some now }, true)
  | .gallery_images => (st, true)

/-- `refresh_cache`'s `for cache_type in types_to_refresh` loop: a
raised fetch abandons the rest of the loop (the exception lands in the
surrounding `except`, which only logs). -/
def refresh_list (now : Nat) (fetch : EntityType → Option (List Row))
    (fetch_images : String → Option (List Row)) : CacheState → List EntityType → CacheState
  | st, [] => st
  | st, t :: rest =>
    match refresh_one now fetch fetch_images st t with
    | (st, true) => refresh_list now fetch fetch_images st rest
    | (st, false) => st

/-- `self.cache.keys()` in insertion order. -/
def cache_keys : List EntityType :=
  [.image_galleries, .gallery_images, .rooms, .room_types, .chatbots, .reservations]

/-- `CacheManager.refresh_cache(cache_type=None)`: refresh the one
given type, or every key of the cache. Never raises to its caller (the
body is wrapped in `try/except` that logs). -/
def refresh_cache (now : Nat) (fetch : EntityType → Option (List Row))
    (fetch_images : String → Option (List Row)) (st : CacheState)
    (cache_type : Option EntityType) : CacheState :=
  match cache_type with
  | some t => refresh_list now fetch fetch_images st [t]
  | none => refresh_list now fetch fetch_images st cache_keys

/-- What a cache read returns: a single record, a row list, or the
`gallery_images` dict. -/
inductive EntityData
  | one (r : Row)
  | many (rows : List Row)
  | dict (d : List (String × List Row))
  deriving DecidableEq, Repr

/-- `CacheManager.get_chatbot_data`: refresh the `chatbots` entry first
when `_is_cache_valid('chatbots')` fails, then serve from the (possibly
refreshed) cache — the whole list, or the first bot matching the id. -/
def get_chatbot_data (now : Nat) (fetch : EntityType → Option (List Row))
    (fetch_images : String → Option (List Row)) (st : CacheState)
    (chatbot_id : Option String) : CacheState × Option EntityData :=
  let st := if is_cache_valid st .chatbots now then st
            else refresh_cache now fetch fetch_images st (some .chatbots)
  match chatbot_id with
  | some cid => (st, (st.chatbots.find? (fun bot => bot.id == cid)).map EntityData.one)
  | none => (st, some (EntityData.many st.chatbots))

/-- The row list `self.cache[entity_type]` holds, for the list-valued
entity-type strings. -/
def cache_list (st : CacheState) : String → Option (List Row)
  | "image_galleries" => some st.image_galleries
  | "rooms" => some st.rooms
  | "room_types" => some st.room_types
  | "chatbots" => some st.chatbots
  | "reservations" => some st.reservations
  | _ => none

/-- `CacheManager.get_entity_data`: serve straight from the cache with
no validity check and no refresh — `None` for an unknown type, the
whole collection without an id, or the first item with the given id.
(For the dict-valued `'gallery_images'` key the id-lookup path would
raise a `TypeError` in Python; it is modelled as `none`.) -/
def get_entity_data (st : CacheState) (entity_type : String) (entity_id : Option String) :
    Option EntityData :=
  if entity_type = "gallery_images" then
    match entity_id with
    | none => some (EntityData.dict st.gallery_images)
    | some _ => none
  else
    match cache_list st entity_type with
    | none => none
    | some items =>
      match entity_id with
      | some i => (items.find? (fun item => item.id == i)).map EntityData.one
      | none => some (EntityData.many items)

/-- `CacheManager.initialize_cache`: load galleries, their images, room
types, rooms, chatbots and active reservations in that order; any
raised Gateway call lands in the `except`, which returns `False` (the
assignments already made persist); full success returns `True`. -/
def initialize_cache (now : Nat) (fetch : EntityType → Option (List Row))
    (fetch_images : String → Option (List Row)) (st : CacheState) : CacheState × Bool :=
  match fetch .image_galleries with
  | none => (st, false)
  | some galleries =>
    let st := { st with image_galleries := galleries, lu_image_galleries := some now }
    match load_gallery_images fetch_images st galleries with
    | (st, false) => (st, false)
    | (st, true) =>
      let st := { st with lu_gallery_images := some now }
      match fetch .room_types with
      | none => (st, false)
      | some room_types =>
        let st := { st with room_types := room_types, lu_room_types := some now }
        match fetch .rooms with
        | none => (st, false)
        | some rooms =>
          let st := { st with rooms := rooms, lu_rooms := some now }
          match fetch .chatbots with
          | none => (st, false)
          | some chatbots =>
            let st := { st with chatbots := chatbots, lu_chatbots := some now }
            match fetch .reservations with
            | none => (st, false)
            | some reservations =>
              ({ st with reservations := reservations, lu_reservations := some now }, true)

/-! ## Response enricher (`response_enricher.py`) -/

/-- One `re.sub` pass of `_clean_image_references`, for the patterns
`\[Imagen[^]]*\]` and `\(Imagen[^)]*\)`, as a one-pass scanner: at an
opening bracket followed by `word` the scanner buffers characters up to
the first closing bracket and drops the whole match; a buffered run the
input ends before closing is emitted unchanged (the regex needs the
closing bracket to match); scanning resumes after each match. The
buffer (`some buf`, reversed) is the pending unclosed reference. -/
def removeRefsAux (word : List Char) (openc close : Char) :
    Option (List Char) → List Char → List Char
  | none, [] => []
  | none, c :: rest =>
    if decide (c = openc) && word.isPrefixOf rest then
      removeRefsAux word openc close (some [c]) rest
    else c :: removeRefsAux word openc close none rest
  | some buf, [] => buf.reverse
  | some buf, c :: rest =>
    if decide (c = close) then removeRefsAux word openc close none rest
    else removeRefsAux word openc close (some (c :: buf)) rest

/-- The bracket-reference removal pass, started outside a reference. -/
def removeRefs (word : List Char) (openc close : Char) (l : List Char) : List Char :=
  removeRefsAux word openc close none l

/-- Emit one whitespace run (`ws`, reversed) that followed a newline:
when the run still holds a newline the regex `\n\s*\n` matched
(greedily up to the run's last newline) and is replaced by a blank
line, keeping the run's tail; otherwise the newline and run pass
through unchanged. -/
def flushRun (ws : List Char) : List Char :=
  if ws.any (fun c => c == '\n') then
    '\n' :: '\n' :: (ws.takeWhile (fun c => c != '\n')).reverse
  else '\n' :: ws.reverse

/-- The `re.sub(r'\n\s*\n', '\n\n', ...)` pass as a one-pass scanner:
after a newline, whitespace is buffered (`some ws`, reversed) until the
run ends, then flushed through `flushRun`. -/
def collapseAux : Option (List Char) → List Char → List Char
  | none, [] => []
  | none, c :: rest =>
    if decide (c = '\n') then collapseAux (some []) rest
    else c :: collapseAux none rest
  | some ws, [] => flushRun ws
  | some ws, c :: rest =>
    if isPySpace c then collapseAux (some (c :: ws)) rest
    else flushRun ws ++ c :: collapseAux none rest

/-- The blank-line collapsing pass, started outside a run. -/
def collapseBlankRuns (l : List Char) : List Char :=
  collapseAux none l

/-- `ResponseEnricher._clean_image_references`: strip `[Imagen...]` and
`(Imagen...)` references, collapse blank-line runs, strip the ends. -/
def clean_image_references (text : String) : String :=
  pyStrip (String.mk (collapseBlankRuns
    (removeRefs "Imagen".toList '(' ')'
      (removeRefs "Imagen".toList '[' ']' text.toList))))

/-- `ResponseEnricher._process_emojis`: when
`personality.get('use_emojis', True)` is falsy, drop every character in
the emoji range `U+1F300`–`U+1F9FF`; otherwise pass through. -/
def process_emojis (text : String) (chatbot_config : ChatbotConfig) : String :=
  let use_emojis := match chatbot_config.personality with
    | none => true
    | some p => p.use_emojis
  if !use_emojis then
    String.mk (text.toList.filter (fun c => !(0x1F300 ≤ c.toNat && c.toNat ≤ 0x1F9FF)))
  else text

/-- The keyword→phrase table of `_generate_image_message`, in source
order (checked by substring against each cleaned term, first hit wins). -/
def context_mapping : List (String × String) :=
  [("piscina", "de nuestra piscina"),
   ("restaurante", "de nuestro restaurante"),
   ("habitacion", "de nuestras habitaciones"),
   ("habitaciones", "de nuestras habitaciones"),
   ("camping", "de nuestra zona de camping"),
   ("instalacion", "de nuestras instalaciones"),
   ("instalaciones", "de nuestras instalaciones"),
   ("parque", "del parque"),
   ("zonas", "de nuestras zonas"),
   ("zona", "de esta zona")]

/-- `ResponseEnricher._generate_image_message`: canned caption from the
first term hitting the keyword table, else from the gallery name when
truthy, else a generic caption joining the cleaned terms with ' y '. -/
def generate_image_message (search_terms : List String) (gallery_name : Option String) :
    String :=
  if search_terms = [] then "¡Aquí tienes algunas fotos! 📸"
  else
    let clean_terms := (search_terms.filter (fun term => pyStrip term != "")).map
      (fun term => pyStrip (pyToLower term))
    match clean_terms.findSome? (fun term =>
        context_mapping.findSome? (fun kp =>
          if isSubstr kp.1 term then some kp.2 else none)) with
    | some phrase => "¡Aquí tienes algunas fotos " ++ phrase ++ "! 📸"
    | none =>
      if (gallery_name.getD "") ≠ "" then
        "¡Aquí tienes algunas fotos relacionadas con " ++ gallery_name.getD "" ++ "! 📸"
      else
        "¡Aquí tienes algunas fotos relacionadas con "
          ++ String.intercalate " y " clean_terms ++ "! 📸"

/-- The facet-influence metadata `apply_weights_to_response` attaches. -/
structure MetadataInfo where
  quick_questions_priority : ℚ
  personality_influence : ℚ
  context_influence : ℚ
  deriving DecidableEq, Repr

/-- What `WeightSystem.apply_weights_to_response` returns. -/
structure WeightedResponse where
  text : String
  weights_applied : List (String × ℚ)
  context_relevance : ℚ
  metadata : MetadataInfo
  deriving DecidableEq, Repr

/-- A gallery image in the enriched output: URL only, by construction
of the source's `gallery_images.append({'url': url})`. -/
structure OutImage where
  url : String
  deriving DecidableEq, Repr

/-- A gallery entry of the enriched output: name plus its images. -/
structure OutGallery where
  name : String
  images : List OutImage
  deriving DecidableEq, Repr

/-- The record `enrich_response` returns. The weight/metadata fields
are `Option`s because the `except` fallback dict carries only `text`
and `galleries`. -/
structure EnrichedResponse where
  text : String
  galleries : List OutGallery
  weights : Option (List (String × ℚ))
  context_relevance : Option ℚ
  metadata : Option MetadataInfo
  deriving DecidableEq, Repr

/-- An all-falsy configuration: what `chatbot_config or {}` passes on
when the config is `None`. -/
def empty_config : ChatbotConfig :=
  { quick_questions := [], personality := none, context := "",
    configuration := [], voice_enabled := false, use_emojis := false }

/-- The gallery-assembly loop of `enrich_response`: keep each found
gallery's images that have a truthy `url` (as `{'url': url}` records),
and keep only galleries left with at least one image. -/
def enrich_galleries (galleries : List Gallery) : List OutGallery :=
  galleries.filterMap (fun gallery =>
    let gallery_images := gallery.gallery_images.filterMap (fun image =>
      if image.url ≠ "" then some { url := image.url } else none)
    if gallery_images ≠ [] then some { name := gallery.name, images := gallery_images }
    else none)

/-- The body of `ResponseEnricher.enrich_response`'s `try` block (the
`chatbot_id` reload path elided: config is passed directly). The three
collaborator stages — `text_formatter.format_response`,
`weight_system.apply_weights_to_response` and
`gallery_manager.find_relevant_galleries` — are parameters returning
`Except`, so a raised stage (`.error`) can be injected; the `.error`
propagates to `enrich_response`'s handler exactly as the Python
exception does. -/
def enrich_pipeline
    (formatter : String → Option ChatbotConfig → Except String String)
    (weigher : String → ChatbotConfig → Except String WeightedResponse)
    (gallery_finder : List String → Except String (List Gallery))
    (llm_response : String) (search_terms : List String)
    (chatbot_config : Option ChatbotConfig) : Except String EnrichedResponse := do
  let processed_text := clean_image_references llm_response
  let processed_text := match chatbot_config with
    | some cfg => process_emojis processed_text cfg
    | none => processed_text
  let formatted_text ← formatter processed_text chatbot_config
  let weighted ← weigher formatted_text (chatbot_config.getD empty_config)
  let enriched_response : EnrichedResponse :=
    { text := weighted.text, galleries := [],
      weights := some weighted.weights_applied,
      context_relevance := some weighted.context_relevance,
      metadata := some weighted.metadata }
  if search_terms = [] then return enriched_response
  else
    let filtered_terms := search_terms.filter (fun term => term != "")
    if filtered_terms = [] then return enriched_response
    else
      let galleries ← gallery_finder filtered_terms
      let enriched_galleries := enrich_galleries galleries
      let text := if enriched_galleries ≠ [] then
          generate_image_message filtered_terms ((enriched_galleries.head?).map OutGallery.name)
        else enriched_response.text
      return { enriched_response with text := text, galleries := enriched_galleries }

/-- `ResponseEnricher.enrich_response`: the `try` body, with the
`except` handler returning `{'text': llm_response, 'galleries': []}` on
any internal failure. Total — it never raises to its caller. -/
def enrich_response
    (formatter : String → Option ChatbotConfig → Except String String)
    (weigher : String → ChatbotConfig → Except String WeightedResponse)
    (gallery_finder : List String → Except String (List Gallery))
    (llm_response : String) (search_terms : List String)
    (chatbot_config : Option ChatbotConfig) : EnrichedResponse :=
  match enrich_pipeline formatter weigher gallery_finder llm_response search_terms
      chatbot_config with
  | .ok r => r
  | .error _ =>
    { text := llm_response, galleries := [], weights := none,
      context_relevance := none, metadata := none }

/-! ## Concrete fixtures used by counterexamples and witnesses -/

/-- A gallery with two keywords and nothing else, used to exercise the
keyword check of the relevance score. -/
def two_keyword_gallery : Gallery :=
  { id := "g", name := "", description := "", keywords := ["aa", "bb"],
    gallery_images := [] }

/-- A fresh conversation plus eleven exchanges, for the witness. -/
def eleven_turns : List (String × String × Nat) :=
  [("u1", "b1", 1), ("u2", "b2", 2), ("u3", "b3", 3), ("u4", "b4", 4),
   ("u5", "b5", 5), ("u6", "b6", 6), ("u7", "b7", 7), ("u8", "b8", 8),
   ("u9", "b9", 9), ("u10", "b10", 10), ("u11", "b11", 11)]

/-- A cache whose `rooms` entry was refreshed at time 0 and never
since. -/
def stale_rooms_state : CacheState :=
  { empty_cache with rooms := [⟨"r1", "old"⟩], lu_rooms := some 0 }

/-- A fetch that always finds one chatbot row. -/
def fetch_one_bot : EntityType → Option (List Row) := fun _ => some [⟨"b1", "bot"⟩]

/-- A per-gallery image fetch that always succeeds with no rows. -/
def no_images : String → Option (List Row) := fun _ => some []

/-- A cache holding one gallery with one image, refreshed at time 0. -/
def gallery_cache_before : CacheState :=
  { empty_cache with
    image_galleries := [⟨"g1", "old"⟩]
    gallery_images := [("g1", [⟨"i1", "img"⟩])]
    lu_image_galleries := some 0
    lu_gallery_images := some 0 }

/-- A fetch where the gallery list succeeds but everything else raises. -/
def fetch_new_galleries : EntityType → Option (List Row) :=
  fun t => if t = .image_galleries then some [⟨"g2", "new"⟩] else none

/-- A per-gallery image fetch that always raises. -/
def failing_images : String → Option (List Row) := fun _ => none

/-- A fetch where every Gateway call raises. -/
def fetch_none : EntityType → Option (List Row) := fun _ => none

/-- A formatting stage that passes text through unchanged. -/
def id_formatter : String → Option ChatbotConfig → Except String String :=
  fun s _ => Except.ok s

/-- A weighting stage that attaches empty weights. -/
def plain_weigher : String → ChatbotConfig → Except String WeightedResponse :=
  fun s _ => Except.ok ⟨s, [], 0, ⟨0, 0, 0⟩⟩

/-- A found gallery with one truthy and one empty image URL. -/
def gallery_with_url : Gallery :=
  ⟨"g1", "G1", "", [], [⟨[], "", "", "http://a"⟩, ⟨[], "", "", ""⟩]⟩

/-- A found gallery none of whose images carries a URL. -/
def gallery_without_url : Gallery :=
  ⟨"g2", "G2", "", [], [⟨[], "", "", ""⟩]⟩

/-- A gallery lookup stage returning the two fixtures above. -/
def two_gallery_finder : List String → Except String (List Gallery) :=
  fun _ => Except.ok [gallery_with_url, gallery_without_url]

/-! ## Theorems -/

/-- C2 counterexample: on a keywords-only gallery both of the two
search terms match a keyword, so `matches = 2` accrues against a
denominator of `1` and the score is `2`, outside the claimed interval
`[0, 1]`. -/
theorem keyword_match_score_exceeds_one :
    calculate_keyword_match_score ["aa", "bb"] two_keyword_gallery = 2 ∧
    ¬ calculate_keyword_match_score ["aa", "bb"] two_keyword_gallery ≤ 1 := by
  have h : calculate_keyword_match_score ["aa", "bb"] two_keyword_gallery
      = ((2 : Nat) : ℚ) / ((1 : Nat) : ℚ) := by with_unfolding_all rfl
  rw [h]
  norm_num

/-- C2 amended: the score is deterministic (a pure function of its two
arguments), nonnegative, and `0` for an empty search-term list; it is
`matches / total_checks` as the code accumulates them, which can exceed
`1` because the keyword check adds one match per term against a single
denominator slot. -/
theorem ite_div_nonneg {c : Prop} [Decidable c] (n m : ℕ) :
    (0 : ℚ) ≤ if c then 0 else (n : ℚ) / (m : ℚ) := by
  split
  · exact le_refl 0
  · positivity

theorem keyword_match_score_nonneg (search_terms : List String) (gallery : Gallery) :
    0 ≤ calculate_keyword_match_score search_terms gallery ∧
    calculate_keyword_match_score [] gallery = 0 := by
  constructor
  · by_cases h : search_terms = []
    · simp [calculate_keyword_match_score, h]
    · rw [calculate_keyword_match_score, if_neg h]
      exact ite_div_nonneg _ _
  · rfl

/-- The sum of a weight map's values distributes over division of each
value by a constant. -/
theorem sumVals_map_div (l : List (String × ℚ)) (c : ℚ) :
    sumVals (l.map (fun p => (p.1, p.2 / c))) = sumVals l / c := by
  induction l with
  | nil => simp [sumVals]
  | cons x xs ih =>
    simp only [sumVals, List.map_cons, List.sum_cons] at *
    rw [ih, add_div]

/-- A weight map with nonnegative values has a nonnegative sum. -/
theorem sumVals_nonneg (l : List (String × ℚ)) (h : ∀ p ∈ l, 0 ≤ p.2) :
    0 ≤ sumVals l := by
  apply List.sum_nonneg
  intro x hx
  rcases List.mem_map.mp hx with ⟨p, hp, rfl⟩
  exact h p hp

/-- The base weights `calculate_response_weights` reads from the table. -/
theorem wval_eval :
    wval "quick_questions" = 35/100 ∧ wval "personality" = 15/100 ∧
    wval "context" = 20/100 ∧ wval "configuration" = 15/100 ∧
    wval "voice_enabled" = 5/100 ∧ wval "use_emojis" = 5/100 :=
  ⟨rfl, rfl, rfl, rfl, rfl, rfl⟩

/-- Membership in a conditional singleton list pins down the element. -/
theorem mem_ite_singleton {c : Prop} [Decidable c] {x p : String × ℚ}
    (hp : p ∈ (if c then [x] else [])) : p = x := by
  split at hp
  · simpa using hp
  · simp at hp

/-- Every value of the raw (pre-normalisation) weight map built by
`calculate_response_weights` is nonnegative. -/
theorem response_weights_raw_nonneg (cfg : ChatbotConfig) :
    ∀ p ∈ ((if cfg.quick_questions ≠ [] then [("quick_questions", wval "quick_questions")] else [])
      ++ (if cfg.personality.isSome then [("personality", wval "personality")] else [])
      ++ (if cfg.context ≠ "" then [("context", wval "context")] else [])
      ++ (if cfg.configuration ≠ [] then [("configuration", wval "configuration")] else [])
      ++ [("voice_enabled", if cfg.voice_enabled then wval "voice_enabled" else 0)]
      ++ [("use_emojis", if cfg.use_emojis then wval "use_emojis" else 0)]), 0 ≤ p.2 := by
  have hq : (0 : ℚ) ≤ wval "quick_questions" := by rw [wval_eval.1]; norm_num
  have hp2 : (0 : ℚ) ≤ wval "personality" := by rw [wval_eval.2.1]; norm_num
  have hc : (0 : ℚ) ≤ wval "context" := by rw [wval_eval.2.2.1]; norm_num
  have hcf : (0 : ℚ) ≤ wval "configuration" := by rw [wval_eval.2.2.2.1]; norm_num
  have hv : (0 : ℚ) ≤ wval "voice_enabled" := by rw [wval_eval.2.2.2.2.1]; norm_num
  have he : (0 : ℚ) ≤ wval "use_emojis" := by rw [wval_eval.2.2.2.2.2]; norm_num
  intro p hp
  simp only [List.mem_append, List.mem_singleton] at hp
  rcases hp with ((((hp | hp) | hp) | hp) | hp) | hp
  · rw [mem_ite_singleton hp]; exact hq
  · rw [mem_ite_singleton hp]; exact hp2
  · rw [mem_ite_singleton hp]; exact hc
  · rw [mem_ite_singleton hp]; exact hcf
  · subst hp
    show (0 : ℚ) ≤ if cfg.voice_enabled then wval "voice_enabled" else 0
    split
    · exact hv
    · exact le_refl 0
  · subst hp
    show (0 : ℚ) ≤ if cfg.use_emojis then wval "use_emojis" else 0
    split
    · exact he
    · exact le_refl 0

/-- C4: for every configuration the computed response-weight map sums
to exactly `0` (no applicable facet has a positive weight) or exactly
`1` (in the rational embedding the renormalised sum is exact, so it
lies within any `1e-6` tolerance of `1.0`). -/
theorem response_weights_sum (cfg : ChatbotConfig) :
    sumVals (calculate_response_weights cfg) = 0 ∨
    sumVals (calculate_response_weights cfg) = 1 := by
  have hnn := response_weights_raw_nonneg cfg
  simp only [calculate_response_weights]
  set w := ((if cfg.quick_questions ≠ [] then [("quick_questions", wval "quick_questions")] else [])
      ++ (if cfg.personality.isSome then [("personality", wval "personality")] else [])
      ++ (if cfg.context ≠ "" then [("context", wval "context")] else [])
      ++ (if cfg.configuration ≠ [] then [("configuration", wval "configuration")] else [])
      ++ [("voice_enabled", if cfg.voice_enabled then wval "voice_enabled" else 0)]
      ++ [("use_emojis", if cfg.use_emojis then wval "use_emojis" else 0)]) with hw
  by_cases hp : 0 < sumVals w
  · right
    rw [if_pos hp, sumVals_map_div, div_self (ne_of_gt hp)]
  · left
    rw [if_neg hp]
    have h0 : 0 ≤ sumVals w := sumVals_nonneg w hnn
    linarith [lt_or_eq_of_le h0]

/-- The recomputed memory relevance is always at least the base score
`1.0`: the content and key-term bonuses are nonnegative and the cap is
`2.0`. -/
theorem one_le_calculate_relevance (key value : String) :
    1 ≤ calculate_relevance key value := by
  unfold calculate_relevance
  have h1 : (0 : ℚ) ≤ ((pySplit value).length : ℚ) / 100 := by positivity
  have h2 : (0 : ℚ) ≤ min (((pySplit value).length : ℚ) / 100) (1/2) :=
    le_min h1 (by norm_num)
  have h3 : (0 : ℚ) ≤
      ((key_terms.filter (fun term => isSubstr (pyToLower term) (pyToLower (key ++ value)))).length : ℚ)
        * (1/10) := by positivity
  exact le_min (by linarith) (by norm_num)

/-- C9 counterexample: no key/value pair ever recomputes to a relevance
below the `0.1` deletion floor — the recomputed score is at least
`1.0`, so the claimed "deletion branch is reachable" is false. -/
theorem memory_deletion_unreachable :
    ¬ ∃ key value, calculate_relevance key value < 1/10 := by
  rintro ⟨key, value, h⟩
  have := one_le_calculate_relevance key value
  linarith

/-- The per-row step of the optimisation pass never deletes: the
recomputed relevance is at least `1.0`, above the deletion floor. -/
theorem optimize_step (m : Memory) :
    (if m.relevance_score < 3/10 then
       (let new_score := calculate_relevance m.key m.value
        if new_score < 1/10 then none
        else some { m with relevance_score := new_score })
     else some m)
    = some (if m.relevance_score < 3/10 then
        { m with relevance_score := calculate_relevance m.key m.value }
      else m) := by
  by_cases h : m.relevance_score < 3/10
  · rw [if_pos h, if_pos h]
    show (if calculate_relevance m.key m.value < 1/10 then none
      else some { m with relevance_score := calculate_relevance m.key m.value }) = _
    rw [if_neg (not_lt.mpr
      (le_trans (by norm_num) (one_le_calculate_relevance m.key m.value)))]
  · rw [if_neg h, if_neg h]

/-- C9 amended: the optimisation pass rescales every low-relevance
memory by recomputing its score from key and value, and deletes none of
them — the recomputed score is always at least `1.0`, far above the
`0.1` floor, so the pass is exactly a map and the deletion branch is
dead code. -/
theorem optimize_memory_relevance_spec (memories : List Memory) :
    optimize_memory_relevance memories
      = memories.map (fun memory =>
          if memory.relevance_score < 3/10 then
            { memory with relevance_score := calculate_relevance memory.key memory.value }
          else memory) ∧
    ∀ key value, 1 ≤ calculate_relevance key value := by
  refine ⟨?_, one_le_calculate_relevance⟩
  induction memories with
  | nil => rfl
  | cons m ms ih =>
    rw [optimize_memory_relevance] at ih ⊢
    simp only [List.filterMap_cons, List.map_cons]
    rw [optimize_step m]
    dsimp only
    rw [ih]

/-- One conversation update always leaves the last 10 turns of the
extended history (`history[-10:]`, a no-op drop when 10 or fewer). -/
theorem update_conversation_history (st : ConversationState) (u b : String) (now : Nat) :
    (update_conversation st u b now).history
      = (st.history ++ [ConversationTurn.mk u b now]).drop
          ((st.history ++ [ConversationTurn.mk u b now]).length - 10) := by
  unfold update_conversation
  dsimp only
  split
  · rfl
  · rename_i hle
    have h0 : (st.history ++ [ConversationTurn.mk u b now]).length - 10 = 0 := by
      simp only [List.length_append, List.length_cons, List.length_nil, not_lt] at *
      omega
    rw [h0, List.drop_zero]

/-- Taking the last `n` of a list whose front was already cut to its
last `n` gives the last `n` of the uncut concatenation. -/
theorem drop_last_absorb {α : Type} (a b : List α) (n : Nat) :
    ((a.drop (a.length - n)) ++ b).drop (((a.drop (a.length - n)) ++ b).length - n)
      = (a ++ b).drop ((a ++ b).length - n) := by
  rw [List.drop_append_eq_append_drop, List.drop_append_eq_append_drop, List.drop_drop]
  simp only [List.length_drop, List.length_append]
  congr 1
  · congr 1
    omega
  · congr 1
    omega

/-- Folding conversation updates over a non-empty turn list yields the
last 10 turns of the original history extended by all the new turns. -/
theorem append_turns_history (turns : List (String × String × Nat))
    (st : ConversationState) (h : turns ≠ []) :
    (append_turns st turns).history
      = (st.history ++ turns.map mkTurn).drop
          ((st.history ++ turns.map mkTurn).length - 10) := by
  induction turns generalizing st with
  | nil => exact absurd rfl h
  | cons t ts ih =>
    by_cases hts : ts = []
    · subst hts
      simpa [append_turns, mkTurn] using update_conversation_history st t.1 t.2.1 t.2.2
    · have step : append_turns st (t :: ts)
        = append_turns (update_conversation st t.1 t.2.1 t.2.2) ts := rfl
      rw [step, ih _ hts, update_conversation_history st t.1 t.2.1 t.2.2]
      have hmk : ConversationTurn.mk t.1 t.2.1 t.2.2 = mkTurn t := rfl
      rw [hmk, drop_last_absorb, List.append_assoc]
      rfl

/-- C7: after appending `10 + k` turns (`k ≥ 1`) to any conversation
state, the history holds exactly the last 10 appended turns in their
original order, and every single append stamps `last_updated` with the
time of that append. -/
theorem conversation_truncation (st : ConversationState)
    (turns : List (String × String × Nat)) (h : 11 ≤ turns.length) :
    (append_turns st turns).history = (turns.map mkTurn).drop (turns.length - 10) ∧
    (append_turns st turns).history.length = 10 ∧
    ∀ st2 u b now, (update_conversation st2 u b now).last_updated = now := by
  have hne : turns ≠ [] := by
    intro hc
    rw [hc] at h
    simp at h
  have hist := append_turns_history turns st hne
  have hdrop : (st.history ++ turns.map mkTurn).drop
      ((st.history ++ turns.map mkTurn).length - 10)
      = (turns.map mkTurn).drop ((turns.map mkTurn).length - 10) := by
    rw [List.drop_append_eq_append_drop]
    have h1 : st.history.length ≤
        (st.history ++ turns.map mkTurn).length - 10 := by
      simp only [List.length_append, List.length_map]
      omega
    rw [List.drop_eq_nil_of_le (by simpa using h1)]
    simp only [List.nil_append, List.length_append]
    congr 1
    omega
  constructor
  · rw [hist, hdrop, List.length_map]
  constructor
  · rw [hist, hdrop, List.length_drop, List.length_map]
    omega
  · intro st2 u b now
    rfl

/-- C7 witness: the truncation theorem applied to a fresh state and
eleven concrete turns. -/
theorem conversation_truncation_witness :
    (append_turns ⟨[], 0⟩ eleven_turns).history
        = (eleven_turns.map mkTurn).drop (eleven_turns.length - 10) ∧
    (append_turns ⟨[], 0⟩ eleven_turns).history.length = 10 ∧
    ∀ st2 u b now, (update_conversation st2 u b now).last_updated = now :=
  conversation_truncation ⟨[], 0⟩ eleven_turns (by decide)

/-- An `if` guarded by a negated boolean, with its branches swapped. -/
theorem bool_guard_if {α : Type} (b : Bool) (x y : α) :
    (if (!b) = true then x else y) = if b = true then y else x := by
  cases b <;> simp

/-- C6: `extract_search_terms` returns only message tokens that are at
least 3 characters long and are neither trigger words nor stop words;
it is the full filtered token list when some trigger word occurs in the
message, and `[]` otherwise. -/
theorem extract_search_terms_spec (message : String) :
    (∀ term ∈ extract_search_terms message,
       3 ≤ term.length ∧ image_indicators.contains term = false ∧
       ignore_words.contains term = false ∧ term ∈ pySplit (pyToLower message)) ∧
    (if image_indicators.any
          (fun indicator => (pySplit (pyToLower message)).contains indicator) then
       extract_search_terms message
         = (pySplit (pyToLower message)).filter (fun word =>
             !(image_indicators.contains word) && !(ignore_words.contains word)
               && decide (2 < word.length))
     else extract_search_terms message = []) := by
  by_cases hm : message = ""
  · subst hm
    constructor
    · intro term ht
      simp [extract_search_terms] at ht
    · decide
  · have hval : extract_search_terms message
        = if image_indicators.any
              (fun indicator => (pySplit (pyToLower message)).contains indicator) then
            (pySplit (pyToLower message)).filter (fun word =>
              !(image_indicators.contains word) && !(ignore_words.contains word)
                && decide (2 < word.length))
          else [] := by
      rw [extract_search_terms, if_neg hm]
      exact bool_guard_if _ _ _
    rw [hval]
    by_cases hc : image_indicators.any
      (fun indicator => (pySplit (pyToLower message)).contains indicator)
    · rw [if_pos hc, if_pos hc]
      refine ⟨?_, rfl⟩
      intro term ht
      have ht' := List.mem_filter.mp ht
      rcases ht' with ⟨hmem, hprop⟩
      simp only [Bool.and_eq_true, Bool.not_eq_true', decide_eq_true_eq] at hprop
      exact ⟨by omega, hprop.1.1, hprop.1.2, hmem⟩
    · rw [if_neg hc, if_neg hc]
      refine ⟨?_, rfl⟩
      intro term ht
      simp at ht

/-- Inserting into the score-sorted list is a permutation of consing. -/
theorem insertByScoreDesc_perm (x : Gallery × ℚ) (l : List (Gallery × ℚ)) :
    (insertByScoreDesc x l).Perm (x :: l) := by
  induction l with
  | nil => exact List.Perm.refl _
  | cons y ys ih =>
    rw [insertByScoreDesc]
    split
    · exact List.Perm.refl _
    · exact (ih.cons y).trans (List.Perm.swap x y ys)

/-- The stable sort is a permutation of its input. -/
theorem sortByScoreDesc_perm (l : List (Gallery × ℚ)) :
    (sortByScoreDesc l).Perm l := by
  induction l with
  | nil => exact List.Perm.refl _
  | cons x xs ih => exact (insertByScoreDesc_perm x (sortByScoreDesc xs)).trans (ih.cons x)

/-- Insertion preserves the descending-score ordering. -/
theorem insertByScoreDesc_pairwise (x : Gallery × ℚ) (l : List (Gallery × ℚ))
    (h : l.Pairwise (fun a b => b.2 ≤ a.2)) :
    (insertByScoreDesc x l).Pairwise (fun a b => b.2 ≤ a.2) := by
  induction l with
  | nil => simp [insertByScoreDesc]
  | cons y ys ih =>
    rw [List.pairwise_cons] at h
    rw [insertByScoreDesc]
    split
    · rename_i hc
      rw [List.pairwise_cons]
      refine ⟨?_, List.pairwise_cons.mpr h⟩
      intro z hz
      rcases List.mem_cons.mp hz with rfl | hz2
      · exact hc
      · exact le_trans (h.1 z hz2) hc
    · rename_i hc
      rw [List.pairwise_cons]
      constructor
      · intro z hz
        have hz' : z ∈ x :: ys := (insertByScoreDesc_perm x ys).mem_iff.mp hz
        rcases List.mem_cons.mp hz' with rfl | hz2
        · exact le_of_not_le hc
        · exact h.1 z hz2
      · exact ih h.2

/-- The stable sort output is pairwise descending on the score. -/
theorem sortByScoreDesc_pairwise (l : List (Gallery × ℚ)) :
    (sortByScoreDesc l).Pairwise (fun a b => b.2 ≤ a.2) := by
  induction l with
  | nil => simp [sortByScoreDesc]
  | cons x xs ih => exact insertByScoreDesc_pairwise x (sortByScoreDesc xs) ih

/-- Projecting galleries out of the score-filtering `filterMap` is a
plain filter on the score condition. -/
theorem map_fst_filterMap_score (galleries : List Gallery) (f : Gallery → ℚ) (ms : ℚ) :
    (galleries.filterMap (fun g => if ms ≤ f g then some (g, f g) else none)).map Prod.fst
      = galleries.filter (fun g => decide (ms ≤ f g)) := by
  induction galleries with
  | nil => rfl
  | cons g gs ih =>
    by_cases h : ms ≤ f g <;>
      simp [List.filterMap_cons, List.filter_cons, h, ih]

/-- Every pair the score-filtering `filterMap` keeps carries the score
of its own gallery. -/
theorem filterMap_score_snd (galleries : List Gallery) (f : Gallery → ℚ) (ms : ℚ) :
    ∀ p ∈ galleries.filterMap (fun g => if ms ≤ f g then some (g, f g) else none),
      p.2 = f p.1 := by
  intro p hp
  rcases List.mem_filterMap.mp hp with ⟨g, _, hfg⟩
  by_cases h : ms ≤ f g
  · rw [if_pos h] at hfg
    cases hfg
    rfl
  · rw [if_neg h] at hfg
    cases hfg

/-- C5: with no usable search terms `find_relevant_galleries` returns
every indexed gallery unchanged (the wildcard case); with usable terms
it returns exactly the galleries scoring at least `min_score` (as a
permutation of the index-order filter), arranged pairwise by descending
score — so a non-empty term list matching nothing yields `[]`,
distinguishable from the wildcard. -/
theorem find_relevant_galleries_spec (galleries : List Gallery)
    (search_terms : List String) (min_score : ℚ) :
    if ((search_terms.filter (fun term => term != "")).map pyToLower) = [] then
      find_relevant_galleries galleries search_terms min_score = galleries
    else
      (find_relevant_galleries galleries search_terms min_score).Perm
          (galleries.filter (fun g => decide (min_score ≤ calculate_keyword_match_score
            ((search_terms.filter (fun term => term != "")).map pyToLower) g))) ∧
      (find_relevant_galleries galleries search_terms min_score).Pairwise
          (fun a b =>
            calculate_keyword_match_score
                ((search_terms.filter (fun term => term != "")).map pyToLower) b
              ≤ calculate_keyword_match_score
                ((search_terms.filter (fun term => term != "")).map pyToLower) a) := by
  by_cases hft : ((search_terms.filter (fun term => term != "")).map pyToLower) = []
  · rw [if_pos hft]
    rw [find_relevant_galleries, if_pos hft]
  · rw [if_neg hft]
    have hval : find_relevant_galleries galleries search_terms min_score
        = (sortByScoreDesc (galleries.filterMap (fun gallery =>
            if min_score ≤ calculate_keyword_match_score
                ((search_terms.filter (fun term => term != "")).map pyToLower) gallery then
              some (gallery, calculate_keyword_match_score
                ((search_terms.filter (fun term => term != "")).map pyToLower) gallery)
            else none))).map Prod.fst := by
      rw [find_relevant_galleries, if_neg hft]
    rw [hval]
    set ft := ((search_terms.filter (fun term => term != "")).map pyToLower) with hftdef
    set rel := galleries.filterMap (fun gallery =>
      if min_score ≤ calculate_keyword_match_score ft gallery then
        some (gallery, calculate_keyword_match_score ft gallery)
      else none) with hrel
    constructor
    · have h1 : ((sortByScoreDesc rel).map Prod.fst).Perm (rel.map Prod.fst) :=
        (sortByScoreDesc_perm rel).map Prod.fst
      have h2 : rel.map Prod.fst = galleries.filter
          (fun g => decide (min_score ≤ calculate_keyword_match_score ft g)) :=
        map_fst_filterMap_score galleries (calculate_keyword_match_score ft) min_score
      rw [h2] at h1
      exact h1
    · have hsorted := sortByScoreDesc_pairwise rel
      have hmemsnd : ∀ p ∈ sortByScoreDesc rel,
          p.2 = calculate_keyword_match_score ft p.1 := by
        intro p hp
        exact filterMap_score_snd galleries (calculate_keyword_match_score ft) min_score p
          ((sortByScoreDesc_perm rel).mem_iff.mp hp)
      rw [List.pairwise_map]
      refine hsorted.imp_of_mem ?_
      intro a b ha hb hab
      rw [hmemsnd a ha, hmemsnd b hb] at hab
      exact hab

/-- C1 counterexample: at time 1000000 the `rooms` entry is far past
its 300-second expiration (`_is_cache_valid` is false), yet
`get_entity_data` — the read path for every entity type other than
chatbots — serves the stale cached row list unchanged; it takes no
clock and performs no refresh. -/
theorem stale_room_read_served :
    is_cache_valid stale_rooms_state .rooms 1000000 = false ∧
    get_entity_data stale_rooms_state "rooms" none
      = some (EntityData.many [⟨"r1", "old"⟩]) := by
  constructor
  · rfl
  · rfl

/-- C1 amended: only the chatbot read path enforces the TTL, and only
when the refresh fetch succeeds: `get_chatbot_data` leaves a valid
entry untouched, refreshes an expired or unset one synchronously before
serving, and in either case the entry it serves from is within its
expiration window at the time of the read. -/
theorem get_chatbot_data_ttl (now : Nat) (fetch : EntityType → Option (List Row))
    (fetch_images : String → Option (List Row)) (st : CacheState) (rows : List Row)
    (h : fetch .chatbots = some rows) :
    (get_chatbot_data now fetch fetch_images st none).1
      = (if is_cache_valid st .chatbots now then st
         else refresh_cache now fetch fetch_images st (some .chatbots)) ∧
    (get_chatbot_data now fetch fetch_images st none).2
      = some (EntityData.many (get_chatbot_data now fetch fetch_images st none).1.chatbots) ∧
    is_cache_valid (get_chatbot_data now fetch fetch_images st none).1 .chatbots now = true := by
  by_cases hv : is_cache_valid st .chatbots now
  · rw [get_chatbot_data, if_pos hv]
    exact ⟨rfl, rfl, hv⟩
  · have hr : refresh_cache now fetch fetch_images st (some .chatbots)
        = { st with chatbots := rows, lu_chatbots := some now } := by
      rw [refresh_cache, refresh_list, refresh_one, h]
      rfl
    rw [get_chatbot_data, if_neg hv, hr]
    refine ⟨rfl, rfl, ?_⟩
    rw [is_cache_valid]
    show decide (now - now < 60) = true
    simp

/-- C1 witness: the amended TTL theorem evaluated on a cold cache with
a succeeding fetch at time 5. -/
theorem get_chatbot_data_ttl_witness :
    (get_chatbot_data 5 fetch_one_bot no_images empty_cache none).1
      = (if is_cache_valid empty_cache .chatbots 5 then empty_cache
         else refresh_cache 5 fetch_one_bot no_images empty_cache (some .chatbots)) ∧
    (get_chatbot_data 5 fetch_one_bot no_images empty_cache none).2
      = some (EntityData.many
          (get_chatbot_data 5 fetch_one_bot no_images empty_cache none).1.chatbots) ∧
    is_cache_valid (get_chatbot_data 5 fetch_one_bot no_images empty_cache none).1
        .chatbots 5 = true :=
  get_chatbot_data_ttl 5 fetch_one_bot no_images empty_cache [⟨"b1", "bot"⟩] rfl

/-- C8 counterexample: a refresh of `image_galleries` whose per-gallery
image fetch raises has already replaced the cached gallery list when
the exception lands in the handler, so a failed refresh does not leave
the previously cached value in place for that entity type. -/
theorem failed_refresh_mutates_cache :
    (refresh_cache 100 fetch_new_galleries failing_images gallery_cache_before
        (some .image_galleries)).image_galleries = [⟨"g2", "new"⟩] ∧
    gallery_cache_before.image_galleries = [⟨"g1", "old"⟩] ∧
    refresh_cache 100 fetch_new_galleries failing_images gallery_cache_before
        (some .image_galleries) ≠ gallery_cache_before := by
  refine ⟨rfl, rfl, ?_⟩
  decide

/-- C8 amended: a failed refresh never raises; for the simple
list-valued entity types (rooms, room types, chatbots, reservations) a
failed single-type refresh leaves the whole cache state unchanged; and
a cold load through `initialize_cache` whose very first Gateway call
raises reports the failure explicitly by returning `false` with the
state untouched. (Partial updates already applied before a failure —
as in the gallery branch — persist.) -/
theorem cache_refresh_error_policy (now : Nat) (fetch : EntityType → Option (List Row))
    (fetch_images : String → Option (List Row)) (st : CacheState) (t : EntityType)
    (ht : t = .rooms ∨ t = .room_types ∨ t = .chatbots ∨ t = .reservations)
    (hf : fetch t = none) (hg : fetch .image_galleries = none) :
    refresh_cache now fetch fetch_images st (some t) = st ∧
    initialize_cache now fetch fetch_images st = (st, false) := by
  constructor
  · rcases ht with rfl | rfl | rfl | rfl <;>
      rw [refresh_cache, refresh_list, refresh_one, hf]
  · rw [initialize_cache, hg]

/-- C8 witness: the error-policy theorem evaluated on an all-raising
Gateway at time 7 with the `rooms` type. -/
theorem cache_refresh_error_policy_witness :
    refresh_cache 7 fetch_none no_images empty_cache (some .rooms) = empty_cache ∧
    initialize_cache 7 fetch_none no_images empty_cache = (empty_cache, false) :=
  cache_refresh_error_policy 7 fetch_none no_images empty_cache .rooms
    (Or.inl rfl) rfl rfl

/-- C3: the enrichment entry point is total and fail-safe — for every
choice of stage functions and inputs, either the whole `try` body
succeeded and its record is returned, or the returned record carries
the original unmodified model text with an empty gallery list. In
particular any stage raising (`.error`) lands in the second case. -/
theorem enrich_response_failsafe
    (formatter : String → Option ChatbotConfig → Except String String)
    (weigher : String → ChatbotConfig → Except String WeightedResponse)
    (gallery_finder : List String → Except String (List Gallery))
    (llm_response : String) (search_terms : List String)
    (chatbot_config : Option ChatbotConfig) :
    enrich_pipeline formatter weigher gallery_finder llm_response search_terms chatbot_config
      = Except.ok (enrich_response formatter weigher gallery_finder llm_response
          search_terms chatbot_config) ∨
    ((enrich_response formatter weigher gallery_finder llm_response search_terms
        chatbot_config).text = llm_response ∧
     (enrich_response formatter weigher gallery_finder llm_response search_terms
        chatbot_config).galleries = []) := by
  cases h : enrich_pipeline formatter weigher gallery_finder llm_response search_terms
      chatbot_config with
  | ok r =>
    left
    rw [enrich_response, h]
  | error e =>
    right
    rw [enrich_response, h]
    exact ⟨rfl, rfl⟩

/-- Splitting a successful `Except` bind into its two stages. -/
theorem except_bind_ok {α β : Type} {x : Except String α} {f : α → Except String β} {b : β}
    (h : x >>= f = Except.ok b) : ∃ a, x = Except.ok a ∧ f a = Except.ok b := by
  cases x with
  | error e => simp [Bind.bind, Except.bind] at h
  | ok a => exact ⟨a, rfl, by simpa [Bind.bind, Except.bind] using h⟩

/-- A successful `pure` pins down the value of the `Except`. -/
theorem pure_ok_inj {α : Type} {a b : α}
    (h : (pure a : Except String α) = Except.ok b) : a = b := by
  simpa [pure, Except.pure] using h

/-- The URL-filtered image list of a gallery is non-empty exactly when
some image has a truthy `url`. -/
theorem out_images_ne_nil_iff (images : List GalleryImage) :
    ((images.filterMap (fun image =>
        if image.url ≠ "" then some ({ url := image.url } : OutImage) else none)) ≠ [])
      ↔ images.any (fun image => image.url != "") = true := by
  induction images with
  | nil => simp
  | cons im l ih =>
    by_cases h : im.url = "" <;> simp [List.filterMap_cons, h, ih]

/-- Every gallery entry the assembly loop keeps has at least one image. -/
theorem enrich_galleries_images_ne_nil (galleries : List Gallery) :
    ∀ g ∈ enrich_galleries galleries, g.images ≠ [] := by
  intro g hg
  rcases List.mem_filterMap.mp hg with ⟨gal, _, h⟩
  by_cases hc : (gal.gallery_images.filterMap (fun image =>
      if image.url ≠ "" then some ({ url := image.url } : OutImage) else none)) = []
  · rw [if_neg (by simpa using hc)] at h
    cases h
  · rw [if_pos (by simpa using hc)] at h
    cases h
    simpa using hc

/-- A `filterMap` keeps exactly as many elements as the predicate its
keep-decision tracks counts. -/
theorem length_filterMap_countP {α β : Type} (f : α → Option β) (p : α → Bool)
    (l : List α) (h : ∀ a, (f a).isSome = p a) :
    (l.filterMap f).length = l.countP p := by
  induction l with
  | nil => rfl
  | cons a l ih =>
    rw [List.filterMap_cons, List.countP_cons]
    cases hfa : f a with
    | none =>
      have hp : p a = false := by rw [← h a, hfa]; rfl
      rw [hp]
      simpa using ih
    | some b =>
      have hp : p a = true := by rw [← h a, hfa]; rfl
      rw [hp]
      simp [ih]

/-- One step of the assembly loop keeps a gallery exactly when some of
its images carries a truthy URL. -/
theorem enrich_gallery_step (gallery : Gallery) :
    (if (gallery.gallery_images.filterMap (fun image =>
         if image.url ≠ "" then some ({ url := image.url } : OutImage) else none)) ≠ [] then
       some ({ name := gallery.name,
               images := gallery.gallery_images.filterMap (fun image =>
                 if image.url ≠ "" then some ({ url := image.url } : OutImage) else none) }
         : OutGallery)
     else none).isSome
      = gallery.gallery_images.any (fun image => image.url != "") := by
  by_cases hc : gallery.gallery_images.any (fun image => image.url != "") = true
  · rw [if_pos ((out_images_ne_nil_iff _).mpr hc), hc]
    rfl
  · have hnil : (gallery.gallery_images.filterMap (fun image =>
        if image.url ≠ "" then some ({ url := image.url } : OutImage) else none)) = [] := by
      by_contra hne
      exact hc ((out_images_ne_nil_iff _).mp hne)
    rw [if_neg (fun hne => hne hnil)]
    rw [eq_false_of_ne_true hc]
    rfl

/-- The assembly loop keeps exactly the found galleries having some
image with a truthy URL. -/
theorem enrich_galleries_length (galleries : List Gallery) :
    (enrich_galleries galleries).length
      = galleries.countP (fun gallery =>
          gallery.gallery_images.any (fun image => image.url != "")) :=
  length_filterMap_countP _ _ galleries (fun g => enrich_gallery_step g)

/-- C10: whenever the `try` body of the enrichment succeeds with a
non-empty filtered search-term list, every gallery entry of the result
has a non-empty image list (each entry being a URL-only record by
construction of `OutImage`), the entries are exactly the URL-filtered
found galleries, and galleries none of whose images carry a URL are
omitted entirely (the output length counts exactly the found galleries
with some truthy image URL). -/
theorem enrich_response_gallery_images
    (formatter : String → Option ChatbotConfig → Except String String)
    (weigher : String → ChatbotConfig → Except String WeightedResponse)
    (gallery_finder : List String → Except String (List Gallery))
    (llm_response : String) (search_terms : List String)
    (chatbot_config : Option ChatbotConfig) (res : EnrichedResponse) (found : List Gallery)
    (hok : enrich_pipeline formatter weigher gallery_finder llm_response search_terms
      chatbot_config = Except.ok res)
    (hgf : gallery_finder (search_terms.filter (fun term => term != ""))
      = Except.ok found)
    (hne : search_terms.filter (fun term => term != "") ≠ []) :
    (∀ g ∈ res.galleries, g.images ≠ []) ∧
    res.galleries = enrich_galleries found ∧
    res.galleries.length = found.countP (fun gallery =>
      gallery.gallery_images.any (fun image => image.url != "")) := by
  have hs : search_terms ≠ [] := by
    intro hc
    subst hc
    exact hne rfl
  unfold enrich_pipeline at hok
  obtain ⟨ft, hf, hok⟩ := except_bind_ok hok
  obtain ⟨w, hw, hok⟩ := except_bind_ok hok
  rw [if_neg hs] at hok
  simp only [if_neg hne] at hok
  obtain ⟨gs, hg, hok⟩ := except_bind_ok hok
  rw [hgf] at hg
  injection hg with hg
  subst hg
  have hres0 := pure_ok_inj hok
  subst hres0
  exact ⟨enrich_galleries_images_ne_nil found, rfl, enrich_galleries_length found⟩

/-- C10 witness: the gallery-image theorem evaluated on concrete
stages, where the URL-less gallery is dropped and the kept entry holds
exactly the one truthy URL. -/
theorem enrich_response_gallery_images_witness :
    (∀ g ∈ (enrich_response id_formatter plain_weigher two_gallery_finder "hola"
        ["piscina"] none).galleries, g.images ≠ []) ∧
    (enrich_response id_formatter plain_weigher two_gallery_finder "hola"
        ["piscina"] none).galleries
      = enrich_galleries [gallery_with_url, gallery_without_url] ∧
    (enrich_response id_formatter plain_weigher two_gallery_finder "hola"
        ["piscina"] none).galleries.length
      = [gallery_with_url, gallery_without_url].countP (fun gallery =>
          gallery.gallery_images.any (fun image => image.url != "")) :=
  enrich_response_gallery_images id_formatter plain_weigher two_gallery_finder "hola"
    ["piscina"] none
    (enrich_response id_formatter plain_weigher two_gallery_finder "hola" ["piscina"] none)
    [gallery_with_url, gallery_without_url] rfl rfl (by decide)

end AgencyServer
